import Mathlib

/-!
Shallow embedding of `codex.py`, a single-file MCP server fronting the
Congress.gov REST API, together with theorems settling the frozen claims
about it.  Python dictionaries are modelled as ordered association lists
with CPython insertion-order update semantics; the network is modelled as
an explicit outcome value fed to the dispatcher; Python exceptions are
modelled with an `Except` monad whose `error` side represents an exception
escaping the dispatcher.  Percent-encoding of query strings, HTTP headers
and the diagnostic `print` lines are observability details not needed by
any claim and are not modelled.
-/

namespace Codex

/-- A scalar value that the Python code places into a params dict:
an `int`, a `str`, or `None` (tools always insert `limit`/`offset`,
which are `Optional[int]` and may be `None`). -/
inductive PVal where
  | pint (n : Int)
  | pstr (s : String)
  | pnone
deriving DecidableEq

/-- A Python dict with string keys, as an insertion-ordered association list. -/
abbrev PyDict := List (String × PVal)

/-- `d[k] = v` in CPython: if `k` is present its value is replaced in
place (dicts hold each key at most once, as does every dict this program
builds), otherwise the pair is appended at the end. -/
def dictSet : PyDict → String → PVal → PyDict
  | [], k, v => [(k, v)]
  | p :: rest, k, v => if p.1 == k then (k, v) :: rest else p :: dictSet rest k v

/-- `d.update(e)` in CPython: set each pair of `e` into `d`, in order. -/
def dictUpdate (d : PyDict) (e : PyDict) : PyDict :=
  e.foldl (fun acc p => dictSet acc p.1 p.2) d

/-- Python `d[k]` lookup (first matching key; our dicts keep keys unique). -/
def dictGet (d : PyDict) (k : String) : Option PVal :=
  List.lookup k d

/-- The value the key `k` ends up with after all assignments of an update
list are applied in order: the value of the LAST pair with key `k`. -/
def lastVal (k : String) : PyDict → Option PVal
  | [] => none
  | p :: rest =>
    match lastVal k rest with
    | some v => some v
    | none => if p.1 == k then some p.2 else none

/-- Python truthiness of an `Optional[str]`: `None` and `""` are falsy. -/
def strTruthy : Option String → Bool
  | none => false
  | some s => !(s == "")

/-- Python `str(b).lower()` for a `bool`. -/
def pyBoolLower (b : Bool) : String :=
  if b then "true" else "false"

/-- A JSON value, as produced by the Python `json` module for the data this
program handles. -/
inductive Json where
  | null
  | bool (b : Bool)
  | num (n : Int)
  | str (s : String)
  | arr (xs : List Json)
  | obj (kvs : List (String × Json))

/-- Escaping of a single character inside a JSON string literal, as
`json.dumps` performs it for the printable ASCII text this program emits. -/
def escChar (c : Char) : String :=
  if c = '"' then "\\\""
  else if c = '\\' then "\\\\"
  else String.singleton c

/-- JSON string-literal escaping of a whole string. -/
def escape (s : String) : String :=
  String.join (s.data.map escChar)

mutual

/-- Python `json.dumps` with its default separators (item separator
a comma and a space, key separator a colon and a space). -/
def dumps : Json → String
  | .null => "null"
  | .bool b => if b then "true" else "false"
  | .num n => toString n
  | .str s => "\"" ++ escape s ++ "\""
  | .arr xs => "[" ++ dumpsArr xs ++ "]"
  | .obj kvs => "\x7b" ++ dumpsObj kvs ++ "\x7d"

/-- The comma-and-space separated rendering of the elements of a JSON array. -/
def dumpsArr : List Json → String
  | [] => ""
  | [x] => dumps x
  | x :: y :: rest => dumps x ++ ", " ++ dumpsArr (y :: rest)

/-- The comma-and-space separated rendering of the members of a JSON object. -/
def dumpsObj : List (String × Json) → String
  | [] => ""
  | [(k, v)] => "\"" ++ escape k ++ "\": " ++ dumps v
  | (k, v) :: m :: rest => "\"" ++ escape k ++ "\": " ++ dumps v ++ ", " ++ dumpsObj (m :: rest)

end

/-- `CONGRESS_API_BASE` from `codex.py` line 8. -/
def CONGRESS_API_BASE : String := "https://api.congress.gov/v3"

/-- The module-level initialization of `codex.py` lines 9-12: read the
`CONGRESS_API_KEY` environment variable; if it is unset (or empty, hence
falsy) the module raises `RuntimeError` with this message, which aborts
process startup.  `.error` carries the message of the raised exception. -/
def module_init (env_CONGRESS_API_KEY : Option String) : Except String (Option String) :=
  if strTruthy env_CONGRESS_API_KEY then
    .ok env_CONGRESS_API_KEY
  else
    .error "CONGRESS_API_KEY environment variable must be set to make API requests"

/-- Rendering of a `PVal` into the query string, as `httpx` serializes
primitive parameter values (`None` becomes the empty string). -/
def pvalText : PVal → String
  | .pint n => toString n
  | .pstr s => s
  | .pnone => ""

/-- The query string `httpx` appends to the URL (percent-encoding is not
modelled; no claim depends on it). -/
def queryString (d : PyDict) : String :=
  String.intercalate "&" (d.map (fun p => p.1 ++ "=" ++ pvalText p.2))

/-- The merged request URL, as exposed by `exc.request.url`. -/
def urlWithQuery (url : String) (d : PyDict) : String :=
  if d.isEmpty then url else url ++ "?" ++ queryString d

/-- Python `repr` of an `httpx.URL`, as interpolated by `!r` in the error
message of `codex.py` line 41. -/
def urlRepr (u : String) : String :=
  "URL(\x27" ++ u ++ "\x27)"

/-- The outcome of the `client.get(...)` call plus `raise_for_status()`:
a 2xx response with its body text; a non-2xx response (carrying the status
code, the body text, and the result of `response.json()` — `none` models a
`json.JSONDecodeError`); a timeout; a connection error; or any other
exception, each with the `str` rendering of the exception. -/
inductive NetOutcome where
  | success (body : String)
  | httpError (status : Nat) (body : String) (bodyJson : Option Json)
  | timeoutExc (msg : String)
  | connectExc (msg : String)
  | otherExc (msg : String)

/-- A Python exception in flight inside `make_congress_request`. -/
inductive PyExn where
  | httpStatusError (status : Nat) (body : String) (bodyJson : Option Json) (requestUrl : String)
  | timeoutExc (msg : String)
  | connectExc (msg : String)
  | otherExc (msg : String)

/-- Python `str(exc)` for the exceptions the broad handler reports. -/
def pyExnMsg : PyExn → String
  | .httpStatusError _ _ _ u => "HTTPStatusError for " ++ u
  | .timeoutExc m => m
  | .connectExc m => m
  | .otherExc m => m

/-- The outgoing query-parameter dict built in `codex.py` lines 26-28:
`full_params = {"api_key": CONGRESS_API_KEY}` then
`full_params.update(params)` when `params` is truthy (updating with an
empty dict is the identity, so the truthiness test is behaviourally
equivalent to updating with `params or {}`). -/
def full_params (key : String) (params : Option PyDict) : PyDict :=
  dictUpdate [("api_key", PVal.pstr key)] (params.getD [])

/-- The GET request issued by the dispatcher: the URL before query-string
merging and the query-parameter dict passed to `client.get`. -/
structure Request where
  url : String
  queryParams : PyDict
deriving DecidableEq

/-- What a dispatcher call produced: the network request it issued, if
any, and the text it returned. -/
structure DispatchOut where
  request : Option Request
  text : String

/-- The `try` block body of `codex.py` lines 33-39: a 2xx response returns
its text; `raise_for_status()` raises `HTTPStatusError` carrying the
merged request URL; transport failures raise their exception. -/
def tryBody (url : String) (fp : PyDict) (net : NetOutcome) : Except PyExn String :=
  match net with
  | .success body => .ok body
  | .httpError status body bodyJson => .error (.httpStatusError status body bodyJson (urlWithQuery url fp))
  | .timeoutExc m => .error (.timeoutExc m)
  | .connectExc m => .error (.connectExc m)
  | .otherExc m => .error (.otherExc m)

/-- The two `except` clauses of `codex.py` lines 40-52.  The first catches
only `httpx.HTTPStatusError` and builds the detailed error document; the
second, `except Exception`, catches every remaining exception and reports
it generically.  A `.error` result would model an exception escaping the
dispatcher; every constructor is in fact caught. -/
def exceptClauses (r : Except PyExn String) : Except PyExn String :=
  match r with
  | .ok s => .ok s
  | .error (.httpStatusError status body bodyJson requestUrl) =>
    let detail := "HTTP error " ++ toString status ++ " while requesting " ++ urlRepr requestUrl ++ "."
    let detail :=
      match bodyJson with
      | some j => detail ++ " Response: " ++ dumps j
      | none => detail ++ " Response body: " ++ body
    .ok (dumps (Json.obj [("error", Json.str detail)]))
  | .error e =>
    .ok (dumps (Json.obj [("error", Json.str ("An unexpected error occurred: " ++ pyExnMsg e))]))

/-- `make_congress_request` of `codex.py` lines 18-52.  `key` is the
module-level `CONGRESS_API_KEY` (`none` when unset), `net` the outcome of
the network call.  The result records the issued request (if any) next to
the returned text; `.error` would be an exception propagating to the
caller. -/
def make_congress_request (key : Option String) (endpoint : String)
    (params : Option PyDict) (net : NetOutcome) : Except PyExn DispatchOut :=
  match key with
  | none => .ok ⟨none, dumps (Json.obj [("error", Json.str "API key is not configured.")])⟩
  | some k =>
    let fp := full_params k params
    let url := CONGRESS_API_BASE ++ endpoint
    (exceptClauses (tryBody url fp net)).map (fun s => ⟨some ⟨url, fp⟩, s⟩)

/-- The `Optional[int]` arguments `limit`/`offset` as dict values: the
tools insert them unconditionally, `None` included. -/
def pyOptInt : Option Int → PVal
  | none => PVal.pnone
  | some n => PVal.pint n

/-- The repeated tool pattern `if v: params[k] = v` for an `Optional[str]`
argument: the key is set only when the value is truthy (non-`None` and
non-empty). -/
def addStrParam (params : PyDict) (k : String) (v : Option String) : PyDict :=
  match v with
  | some s => if s == "" then params else dictSet params k (PVal.pstr s)
  | none => params

/-- The params dict built by `list_bills` (`codex.py` lines 164-179). -/
def list_bills_params (limit offset : Option Int)
    (fromDateTime toDateTime sort : Option String) : PyDict :=
  let params : PyDict := [("limit", pyOptInt limit), ("offset", pyOptInt offset)]
  let params := addStrParam params "fromDateTime" fromDateTime
  let params := addStrParam params "toDateTime" toDateTime
  addStrParam params "sort" sort

/-- `list_bills` (`codex.py` lines 163-179). -/
def list_bills (key : Option String) (limit offset : Option Int)
    (fromDateTime toDateTime sort : Option String) (net : NetOutcome) :
    Except PyExn DispatchOut :=
  make_congress_request key "/bill"
    (some (list_bills_params limit offset fromDateTime toDateTime sort)) net

/-- The params dict built by `list_committees` (`codex.py` lines 340-348). -/
def list_committees_params (limit offset : Option Int) (chamber : Option String) : PyDict :=
  let params : PyDict := [("limit", pyOptInt limit), ("offset", pyOptInt offset)]
  addStrParam params "chamber" chamber

/-- `list_committees` (`codex.py` lines 339-349). -/
def list_committees (key : Option String) (limit offset : Option Int)
    (chamber : Option String) (net : NetOutcome) : Except PyExn DispatchOut :=
  make_congress_request key "/committee"
    (some (list_committees_params limit offset chamber)) net

/-- The params dict built by `list_hearings_by_congress`
(`codex.py` lines 866-878). -/
def list_hearings_by_congress_params (limit offset : Option Int)
    (chamber committee : Option String) : PyDict :=
  let params : PyDict := [("limit", pyOptInt limit), ("offset", pyOptInt offset)]
  let params := addStrParam params "chamber" chamber
  addStrParam params "committee" committee

/-- `list_hearings_by_congress` (`codex.py` lines 865-879). -/
def list_hearings_by_congress (key : Option String) (congress : Int)
    (limit offset : Option Int) (chamber committee : Option String)
    (net : NetOutcome) : Except PyExn DispatchOut :=
  make_congress_request key ("/hearing/" ++ toString congress)
    (some (list_hearings_by_congress_params limit offset chamber committee)) net

/-- The params dict built by `list_committee_reports_by_congress`
(`codex.py` lines 409-424): the `conference` flag is inserted as
`str(conference).lower()` whenever it is not `None`. -/
def list_committee_reports_by_congress_params (limit offset : Option Int)
    (fromDateTime toDateTime : Option String) (conference : Option Bool) : PyDict :=
  let params : PyDict := [("limit", pyOptInt limit), ("offset", pyOptInt offset)]
  let params := addStrParam params "fromDateTime" fromDateTime
  let params := addStrParam params "toDateTime" toDateTime
  match conference with
  | some b => dictSet params "conference" (PVal.pstr (pyBoolLower b))
  | none => params

/-- `list_committee_reports_by_congress` (`codex.py` lines 408-425). -/
def list_committee_reports_by_congress (key : Option String) (congress : Int)
    (limit offset : Option Int) (fromDateTime toDateTime : Option String)
    (conference : Option Bool) (net : NetOutcome) : Except PyExn DispatchOut :=
  make_congress_request key ("/committee-report/" ++ toString congress)
    (some (list_committee_reports_by_congress_params limit offset fromDateTime toDateTime conference)) net

/-- The params dict built by `list_members` (`codex.py` lines 574-588):
the `currentMember` flag is inserted as `str(currentMember).lower()`
whenever it is not `None`. -/
def list_members_params (limit offset : Option Int)
    (fromDateTime toDateTime : Option String) (currentMember : Option Bool) : PyDict :=
  let params : PyDict := [("limit", pyOptInt limit), ("offset", pyOptInt offset)]
  let params := addStrParam params "fromDateTime" fromDateTime
  let params := addStrParam params "toDateTime" toDateTime
  match currentMember with
  | some b => dictSet params "currentMember" (PVal.pstr (pyBoolLower b))
  | none => params

/-- `list_members` (`codex.py` lines 573-589). -/
def list_members (key : Option String) (limit offset : Option Int)
    (fromDateTime toDateTime : Option String) (currentMember : Option Bool)
    (net : NetOutcome) : Except PyExn DispatchOut :=
  make_congress_request key "/member"
    (some (list_members_params limit offset fromDateTime toDateTime currentMember)) net

/-- `get_bill_details` (`codex.py` lines 220-227): a detail-type tool with
a fully determined path and no params dict (`params = None`). -/
def get_bill_details (key : Option String) (congress : Int) (billType : String)
    (billNumber : Int) (net : NetOutcome) : Except PyExn DispatchOut :=
  make_congress_request key
    ("/bill/" ++ toString congress ++ "/" ++ billType ++ "/" ++ toString billNumber) none net

/-- `get_member_details` (`codex.py` lines 591-596). -/
def get_member_details (key : Option String) (bioguideId : String)
    (net : NetOutcome) : Except PyExn DispatchOut :=
  make_congress_request key ("/member/" ++ bioguideId) none net

/-- `get_committee_details` (`codex.py` lines 361-367). -/
def get_committee_details (key : Option String) (chamber committeeCode : String)
    (net : NetOutcome) : Except PyExn DispatchOut :=
  make_congress_request key ("/committee/" ++ chamber ++ "/" ++ committeeCode) none net

/-- The whole mutable module state of the running server: only the
credential read at import time.  No function of `codex.py` assigns a
module global after import, so every tool leaves this state unchanged. -/
structure ServerState where
  apiKey : Option String
deriving DecidableEq

/-- `get_bill_details` as a state-passing invocation: it reads the module
state and performs no assignment to it, returning it unchanged. -/
def get_bill_details_st (st : ServerState) (congress : Int) (billType : String)
    (billNumber : Int) (net : NetOutcome) : Except PyExn DispatchOut × ServerState :=
  (get_bill_details st.apiKey congress billType billNumber net, st)

/-- `get_member_details` as a state-passing invocation. -/
def get_member_details_st (st : ServerState) (bioguideId : String)
    (net : NetOutcome) : Except PyExn DispatchOut × ServerState :=
  (get_member_details st.apiKey bioguideId net, st)

/-- `get_committee_details` as a state-passing invocation. -/
def get_committee_details_st (st : ServerState) (chamber committeeCode : String)
    (net : NetOutcome) : Except PyExn DispatchOut × ServerState :=
  (get_committee_details st.apiKey chamber committeeCode net, st)

/-- `needle` occurs as a contiguous substring of `hay`. -/
def strContains (needle hay : String) : Prop :=
  ∃ a b, hay.data = a ++ needle.data ++ b

end Codex

namespace Codex

theorem strContains_of_eq {needle hay : String} (a b : List Char)
    (h : hay.data = a ++ needle.data ++ b) : strContains needle hay :=
  ⟨a, b, h⟩

theorem strContains_trans {x y z : String} (h1 : strContains x y)
    (h2 : strContains y z) : strContains x z := by
  obtain ⟨a, b, hy⟩ := h1
  obtain ⟨c, d, hz⟩ := h2
  exact ⟨c ++ a, b ++ d, by simp [hz, hy]⟩

theorem data_append (s t : String) : (s ++ t).data = s.data ++ t.data := by
  cases s
  cases t
  rfl

theorem beq_false_of_ne {a b : String} (h : ¬ a = b) : (a == b) = false := by
  cases hab : a == b with
  | true => exact absurd (eq_of_beq hab) h
  | false => rfl

theorem dictGet_dictSet_self (d : PyDict) (k : String) (v : PVal) :
    dictGet (dictSet d k v) k = some v := by
  induction d with
  | nil => simp [dictSet, dictGet, List.lookup]
  | cons p rest ih =>
    by_cases hq : p.1 = k
    · simp [dictSet, dictGet, List.lookup, hq]
    · have h1 := beq_false_of_ne hq
      have h2 := beq_false_of_ne (fun hh => hq hh.symm)
      simpa [dictSet, dictGet, List.lookup, h1, h2] using ih

theorem dictGet_dictSet_ne (d : PyDict) (k j : String) (v : PVal) (h : ¬ k = j) :
    dictGet (dictSet d k v) j = dictGet d j := by
  have hjk : (j == k) = false := beq_false_of_ne (fun hh => h hh.symm)
  induction d with
  | nil => simp [dictSet, dictGet, List.lookup, hjk]
  | cons p rest ih =>
    by_cases hpk : p.1 = k
    · simp [dictSet, dictGet, List.lookup, hpk, hjk]
    · have h1 := beq_false_of_ne hpk
      cases hjp : j == p.1 with
      | true => simp [dictSet, dictGet, List.lookup, h1, hjp]
      | false => simpa [dictSet, dictGet, List.lookup, h1, hjp] using ih

theorem lastVal_of_dictGet_none (p : PyDict) (k : String)
    (h : dictGet p k = none) : lastVal k p = none := by
  induction p with
  | nil => rfl
  | cons q rest ih =>
    by_cases hq : q.1 = k
    · simp [dictGet, List.lookup, hq] at h
    · have h1 := beq_false_of_ne hq
      have h2 := beq_false_of_ne (fun hh => hq hh.symm)
      have hrest : dictGet rest k = none := by
        simpa [dictGet, List.lookup, h2] using h
      simp [lastVal, h1, ih hrest]

theorem dictSet_fresh_append (p : PyDict) (k : String) (v : PVal)
    (h : dictGet p k = none) : dictSet p k v = p ++ [(k, v)] := by
  induction p with
  | nil => rfl
  | cons q rest ih =>
    by_cases hq : q.1 = k
    · simp [dictGet, List.lookup, hq] at h
    · have h1 := beq_false_of_ne hq
      have h2 := beq_false_of_ne (fun hh => hq hh.symm)
      have hrest : dictGet rest k = none := by
        simpa [dictGet, List.lookup, h2] using h
      simp [dictSet, h1, ih hrest]

theorem lastVal_append_single (p : PyDict) (k : String) (v : PVal) :
    lastVal k (p ++ [(k, v)]) = some v := by
  induction p with
  | nil => simp [lastVal]
  | cons q rest ih => simp [lastVal, ih]

theorem lastVal_dictSet_fresh (p : PyDict) (k : String) (v : PVal)
    (h : dictGet p k = none) : lastVal k (dictSet p k v) = some v := by
  rw [dictSet_fresh_append p k v h]
  exact lastVal_append_single p k v

theorem dictGet_dictUpdate_some (us : PyDict) :
    ∀ (d : PyDict) (k : String) (v : PVal), dictGet d k = some v →
      dictGet (dictUpdate d us) k = some ((lastVal k us).getD v) := by
  induction us with
  | nil =>
    intro d k v h
    simpa [dictUpdate, lastVal] using h
  | cons p us ih =>
    intro d k v h
    have hstep : dictUpdate d (p :: us) = dictUpdate (dictSet d p.1 p.2) us := rfl
    rw [hstep]
    by_cases hk : p.1 = k
    · subst hk
      rw [ih _ _ _ (dictGet_dictSet_self d p.1 p.2)]
      cases hl : lastVal p.1 us <;> simp [lastVal, hl]
    · have h1 : dictGet (dictSet d p.1 p.2) k = some v :=
        (dictGet_dictSet_ne d p.1 k p.2 hk).trans h
      rw [ih _ _ _ h1]
      cases hl : lastVal k us <;> simp [lastVal, hl, hk]

theorem dictGet_dictUpdate_none (us : PyDict) :
    ∀ (d : PyDict) (k : String), dictGet d k = none →
      dictGet (dictUpdate d us) k = lastVal k us := by
  induction us with
  | nil =>
    intro d k h
    simpa [dictUpdate, lastVal] using h
  | cons p us ih =>
    intro d k h
    have hstep : dictUpdate d (p :: us) = dictUpdate (dictSet d p.1 p.2) us := rfl
    rw [hstep]
    by_cases hk : p.1 = k
    · subst hk
      rw [dictGet_dictUpdate_some us _ _ _ (dictGet_dictSet_self d p.1 p.2)]
      cases hl : lastVal p.1 us <;> simp [lastVal, hl]
    · have h1 : dictGet (dictSet d p.1 p.2) k = none :=
        (dictGet_dictSet_ne d p.1 k p.2 hk).trans h
      rw [ih _ _ h1]
      cases hl : lastVal k us <;> simp [lastVal, hl, hk]

theorem dictGet_addStrParam_ne (p : PyDict) (k j : String) (v : Option String)
    (h : ¬ k = j) : dictGet (addStrParam p k v) j = dictGet p j := by
  cases v with
  | none => rfl
  | some s =>
    cases hs : s == "" with
    | true => simp [addStrParam, hs]
    | false => simp [addStrParam, hs, dictGet_dictSet_ne p k j _ h]

theorem dictGet_full_params_ne (key : String) (p : PyDict) (k : String)
    (h : dictGet ([("api_key", PVal.pstr key)] : PyDict) k = none) :
    dictGet (full_params key (some p)) k = lastVal k p :=
  dictGet_dictUpdate_none p [("api_key", PVal.pstr key)] k h

/-- C1 counterexample: the claim that a caller-supplied `"api_key"` entry
cannot override the configured credential is false.  With credential
`"SECRET"` and caller params `{"api_key": "evil"}`, the outgoing mapping
sends `"evil"` upstream, because `full_params.update(params)` applies the
caller params AFTER the credential. -/
theorem api_key_caller_override_cex :
    dictGet (full_params "SECRET" (some [("api_key", PVal.pstr "evil")])) "api_key" =
      some (PVal.pstr "evil")
    ∧ dictGet (full_params "SECRET" (some [("api_key", PVal.pstr "evil")])) "api_key" ≠
      some (PVal.pstr "SECRET") := by
  refine ⟨rfl, ?_⟩
  intro h
  simp [full_params, dictUpdate, dictSet, dictGet, List.lookup] at h

/-- C1 amended: for every dispatch call the outgoing query-parameter
mapping contains the key `api_key`; its value is the configured
credential unless the params mapping of the caller itself contains
`api_key`, in which case the (last) caller value overrides the
credential, since the credential is inserted first and the caller
params are applied on top of it. -/
theorem api_key_last_writer_wins (key : String) (params : Option PyDict) :
    dictGet (full_params key params) "api_key" =
      some ((lastVal "api_key" (params.getD [])).getD (PVal.pstr key)) := by
  have h : dictGet ([("api_key", PVal.pstr key)] : PyDict) "api_key" =
      some (PVal.pstr key) := by
    simp [dictGet, List.lookup]
  exact dictGet_dictUpdate_some (params.getD []) _ _ _ h

/-- The claim of C2, stated the way the spec puts it, is that module
initialization with the credential unset succeeds; the code instead
raises `RuntimeError` and aborts startup.  This theorem evaluates the
code at the failing input. -/
theorem module_init_raises_on_missing_key :
    module_init none =
      .error "CONGRESS_API_KEY environment variable must be set to make API requests" := by
  rfl

/-- C3: with the credential unset, every dispatch call returns exactly
the configuration-error document and records no issued network request. -/
theorem dispatch_short_circuits_without_key (endpoint : String)
    (params : Option PyDict) (net : NetOutcome) :
    make_congress_request none endpoint params net =
      .ok ⟨none, "\x7b\"error\": \"API key is not configured.\"\x7d"⟩ := by
  rfl

/-- C4: for every credential state, endpoint, parameter set and network
outcome (success, any HTTP status, timeout, connection failure, or any
other exception), the dispatcher returns `.ok` with a text — no exception
escapes through the `except` clauses. -/
theorem dispatch_never_raises (key : Option String) (endpoint : String)
    (params : Option PyDict) (net : NetOutcome) :
    ∃ out : DispatchOut, make_congress_request key endpoint params net = .ok out := by
  cases key with
  | none => exact ⟨_, rfl⟩
  | some k => cases net <;> exact ⟨_, rfl⟩

/-- C8: `get_bill_details(congress=117, billType="hr", billNumber=3076)`
issues a GET to `/bill/117/hr/3076` under the fixed base ending in `/v3`,
with `api_key` as the only query parameter, and on a 2xx response returns
the upstream body text unmodified. -/
theorem get_bill_details_request_and_success (k body : String) :
    get_bill_details (some k) 117 "hr" 3076 (.success body) =
      .ok ⟨some ⟨"https://api.congress.gov/v3/bill/117/hr/3076",
                 [("api_key", PVal.pstr k)]⟩, body⟩
    ∧ CONGRESS_API_BASE = "https://api.congress.gov/v3" := by
  exact ⟨rfl, rfl⟩

/-- C9: detail-type tool calls are pure reads: invoking the same tool
twice with identical arguments, an identical module state, and an
identical upstream outcome yields identical result texts, and the module
state after the first call is unchanged (so the second call runs from the
very same state). -/
theorem detail_tools_idempotent (st : ServerState) (congress : Int)
    (billType : String) (billNumber : Int) (bioguideId chamber committeeCode : String)
    (net : NetOutcome) :
    ((get_bill_details_st
        (get_bill_details_st st congress billType billNumber net).2
        congress billType billNumber net).1 =
      (get_bill_details_st st congress billType billNumber net).1
      ∧ (get_bill_details_st st congress billType billNumber net).2 = st)
    ∧ ((get_member_details_st
          (get_member_details_st st bioguideId net).2 bioguideId net).1 =
        (get_member_details_st st bioguideId net).1
        ∧ (get_member_details_st st bioguideId net).2 = st)
    ∧ ((get_committee_details_st
          (get_committee_details_st st chamber committeeCode net).2
          chamber committeeCode net).1 =
        (get_committee_details_st st chamber committeeCode net).1
        ∧ (get_committee_details_st st chamber committeeCode net).2 = st) := by
  exact ⟨⟨rfl, rfl⟩, ⟨rfl, rfl⟩, ⟨rfl, rfl⟩⟩

theorem http_error_detail_general (k endpoint : String) (params : Option PyDict)
    (status : Nat) (body : String) (bodyJson : Option Json) :
    ∃ detail : String,
      make_congress_request (some k) endpoint params
          (NetOutcome.httpError status body bodyJson) =
        .ok ⟨some ⟨CONGRESS_API_BASE ++ endpoint, full_params k params⟩,
             dumps (Json.obj [("error", Json.str detail)])⟩
      ∧ strContains (toString status) detail
      ∧ strContains
          (urlWithQuery (CONGRESS_API_BASE ++ endpoint) (full_params k params)) detail
      ∧ (match bodyJson with
         | some j => strContains (dumps j) detail
         | none => strContains body detail) := by
  cases bodyJson with
  | some j =>
    refine ⟨"HTTP error " ++ toString status ++ " while requesting "
        ++ urlRepr (urlWithQuery (CONGRESS_API_BASE ++ endpoint) (full_params k params))
        ++ "." ++ " Response: " ++ dumps j, rfl, ?_, ?_, ?_⟩
    · exact strContains_of_eq ("HTTP error ".data)
        ((" while requesting "
          ++ urlRepr (urlWithQuery (CONGRESS_API_BASE ++ endpoint) (full_params k params))
          ++ "." ++ " Response: " ++ dumps j).data)
        (by simp [data_append, List.append_assoc])
    · exact strContains_of_eq
        (("HTTP error " ++ toString status ++ " while requesting " ++ "URL(\x27").data)
        (("\x27)" ++ "." ++ " Response: " ++ dumps j).data)
        (by simp [urlRepr, data_append, List.append_assoc])
    · exact strContains_of_eq
        (("HTTP error " ++ toString status ++ " while requesting "
          ++ urlRepr (urlWithQuery (CONGRESS_API_BASE ++ endpoint) (full_params k params))
          ++ "." ++ " Response: ").data)
        ([])
        (by simp [data_append, List.append_assoc])
  | none =>
    refine ⟨"HTTP error " ++ toString status ++ " while requesting "
        ++ urlRepr (urlWithQuery (CONGRESS_API_BASE ++ endpoint) (full_params k params))
        ++ "." ++ " Response body: " ++ body, rfl, ?_, ?_, ?_⟩
    · exact strContains_of_eq ("HTTP error ".data)
        ((" while requesting "
          ++ urlRepr (urlWithQuery (CONGRESS_API_BASE ++ endpoint) (full_params k params))
          ++ "." ++ " Response body: " ++ body).data)
        (by simp [data_append, List.append_assoc])
    · exact strContains_of_eq
        (("HTTP error " ++ toString status ++ " while requesting " ++ "URL(\x27").data)
        (("\x27)" ++ "." ++ " Response body: " ++ body).data)
        (by simp [urlRepr, data_append, List.append_assoc])
    · exact strContains_of_eq
        (("HTTP error " ++ toString status ++ " while requesting "
          ++ urlRepr (urlWithQuery (CONGRESS_API_BASE ++ endpoint) (full_params k params))
          ++ "." ++ " Response body: ").data)
        ([])
        (by simp [data_append, List.append_assoc])

/-- C5: every non-2xx upstream response makes the dispatcher return a
single-key JSON error document whose message embeds the HTTP status code
and the merged request URL, and embeds the re-serialized upstream JSON
body when the body parses as JSON, otherwise the raw response text.  In
particular a 404 with body `\x7b"detail": "not found"\x7d` yields a
message containing both `404` and `not found`. -/
theorem http_error_document_embeds_status_url_body :
    (∀ (k endpoint : String) (params : Option PyDict) (status : Nat)
        (body : String) (bodyJson : Option Json),
      ∃ detail : String,
        make_congress_request (some k) endpoint params
            (NetOutcome.httpError status body bodyJson) =
          .ok ⟨some ⟨CONGRESS_API_BASE ++ endpoint, full_params k params⟩,
               dumps (Json.obj [("error", Json.str detail)])⟩
        ∧ strContains (toString status) detail
        ∧ strContains
            (urlWithQuery (CONGRESS_API_BASE ++ endpoint) (full_params k params)) detail
        ∧ (match bodyJson with
           | some j => strContains (dumps j) detail
           | none => strContains body detail))
    ∧ (∃ detail : String,
        make_congress_request (some "KEY") "/bill/117/hr/3076" none
            (NetOutcome.httpError 404 "\x7b\"detail\": \"not found\"\x7d"
              (some (Json.obj [("detail", Json.str "not found")]))) =
          .ok ⟨some ⟨CONGRESS_API_BASE ++ "/bill/117/hr/3076",
                     [("api_key", PVal.pstr "KEY")]⟩,
               dumps (Json.obj [("error", Json.str detail)])⟩
        ∧ strContains "404" detail
        ∧ strContains "not found" detail) := by
  refine ⟨http_error_detail_general, ?_⟩
  obtain ⟨detail, heq, hst, _, hjson⟩ :=
    http_error_detail_general "KEY" "/bill/117/hr/3076" none 404
      "\x7b\"detail\": \"not found\"\x7d"
      (some (Json.obj [("detail", Json.str "not found")]))
  refine ⟨detail, heq, hst, ?_⟩
  refine strContains_trans ?_ hjson
  exact strContains_of_eq ("\x7b\"detail\": \"".data) ("\"\x7d".data) rfl

/-- C6: for the tools accepting a tri-state boolean filter
(`conference` on `list_committee_reports_by_congress`, `currentMember`
on `list_members`): `True` serializes to the literal string `"true"`,
`False` to `"false"`, and `None` leaves the key absent from the
outgoing query parameters. -/
theorem bool_filters_serialize_lowercase (key : String) (l o : Option Int)
    (fd td : Option String) :
    (dictGet (full_params key
        (some (list_committee_reports_by_congress_params l o fd td (some true))))
        "conference" = some (PVal.pstr "true"))
    ∧ (dictGet (full_params key
        (some (list_committee_reports_by_congress_params l o fd td (some false))))
        "conference" = some (PVal.pstr "false"))
    ∧ (dictGet (full_params key
        (some (list_committee_reports_by_congress_params l o fd td none)))
        "conference" = none)
    ∧ (dictGet (full_params key
        (some (list_members_params l o fd td (some true))))
        "currentMember" = some (PVal.pstr "true"))
    ∧ (dictGet (full_params key
        (some (list_members_params l o fd td (some false))))
        "currentMember" = some (PVal.pstr "false"))
    ∧ (dictGet (full_params key
        (some (list_members_params l o fd td none)))
        "currentMember" = none) := by
  have hkc : dictGet ([("api_key", PVal.pstr key)] : PyDict) "conference" = none := rfl
  have hkm : dictGet ([("api_key", PVal.pstr key)] : PyDict) "currentMember" = none := rfl
  have hmidc : dictGet (addStrParam (addStrParam
      ([("limit", pyOptInt l), ("offset", pyOptInt o)] : PyDict)
      "fromDateTime" fd) "toDateTime" td) "conference" = none := by
    rw [dictGet_addStrParam_ne _ _ _ _ (by decide),
        dictGet_addStrParam_ne _ _ _ _ (by decide)]
    rfl
  have hmidm : dictGet (addStrParam (addStrParam
      ([("limit", pyOptInt l), ("offset", pyOptInt o)] : PyDict)
      "fromDateTime" fd) "toDateTime" td) "currentMember" = none := by
    rw [dictGet_addStrParam_ne _ _ _ _ (by decide),
        dictGet_addStrParam_ne _ _ _ _ (by decide)]
    rfl
  refine ⟨?_, ?_, ?_, ?_, ?_, ?_⟩
  · rw [dictGet_full_params_ne key _ "conference" hkc]
    exact lastVal_dictSet_fresh _ _ _ hmidc
  · rw [dictGet_full_params_ne key _ "conference" hkc]
    exact lastVal_dictSet_fresh _ _ _ hmidc
  · rw [dictGet_full_params_ne key _ "conference" hkc]
    exact lastVal_of_dictGet_none _ _ hmidc
  · rw [dictGet_full_params_ne key _ "currentMember" hkm]
    exact lastVal_dictSet_fresh _ _ _ hmidm
  · rw [dictGet_full_params_ne key _ "currentMember" hkm]
    exact lastVal_dictSet_fresh _ _ _ hmidm
  · rw [dictGet_full_params_ne key _ "currentMember" hkm]
    exact lastVal_of_dictGet_none _ _ hmidm

/-- C7: for the list-type tools, an omitted optional filter
(`fromDateTime`, `toDateTime`, `sort` on `list_bills`; `chamber` on
`list_committees`; `chamber`, `committee` on `list_hearings_by_congress`)
leaves its key absent from the outgoing query parameters — it is not
present with an empty or null value. -/
theorem omitted_filters_absent (key : String) (l o : Option Int)
    (fd td s ch cm : Option String) :
    (dictGet (full_params key (some (list_bills_params l o none td s)))
      "fromDateTime" = none)
    ∧ (dictGet (full_params key (some (list_bills_params l o fd none s)))
      "toDateTime" = none)
    ∧ (dictGet (full_params key (some (list_bills_params l o fd td none)))
      "sort" = none)
    ∧ (dictGet (full_params key (some (list_committees_params l o none)))
      "chamber" = none)
    ∧ (dictGet (full_params key (some (list_hearings_by_congress_params l o none cm)))
      "chamber" = none)
    ∧ (dictGet (full_params key (some (list_hearings_by_congress_params l o ch none)))
      "committee" = none) := by
  have h1 : dictGet (list_bills_params l o none td s) "fromDateTime" = none := by
    show dictGet (addStrParam (addStrParam
        ([("limit", pyOptInt l), ("offset", pyOptInt o)] : PyDict)
        "toDateTime" td) "sort" s) "fromDateTime" = none
    rw [dictGet_addStrParam_ne _ _ _ _ (by decide),
        dictGet_addStrParam_ne _ _ _ _ (by decide)]
    rfl
  have h2 : dictGet (list_bills_params l o fd none s) "toDateTime" = none := by
    show dictGet (addStrParam (addStrParam
        ([("limit", pyOptInt l), ("offset", pyOptInt o)] : PyDict)
        "fromDateTime" fd) "sort" s) "toDateTime" = none
    rw [dictGet_addStrParam_ne _ _ _ _ (by decide),
        dictGet_addStrParam_ne _ _ _ _ (by decide)]
    rfl
  have h3 : dictGet (list_bills_params l o fd td none) "sort" = none := by
    show dictGet (addStrParam (addStrParam
        ([("limit", pyOptInt l), ("offset", pyOptInt o)] : PyDict)
        "fromDateTime" fd) "toDateTime" td) "sort" = none
    rw [dictGet_addStrParam_ne _ _ _ _ (by decide),
        dictGet_addStrParam_ne _ _ _ _ (by decide)]
    rfl
  have h4 : dictGet (list_committees_params l o none) "chamber" = none := rfl
  have h5 : dictGet (list_hearings_by_congress_params l o none cm) "chamber" = none := by
    show dictGet (addStrParam
        ([("limit", pyOptInt l), ("offset", pyOptInt o)] : PyDict)
        "committee" cm) "chamber" = none
    rw [dictGet_addStrParam_ne _ _ _ _ (by decide)]
    rfl
  have h6 : dictGet (list_hearings_by_congress_params l o ch none) "committee" = none := by
    show dictGet (addStrParam
        ([("limit", pyOptInt l), ("offset", pyOptInt o)] : PyDict)
        "chamber" ch) "committee" = none
    rw [dictGet_addStrParam_ne _ _ _ _ (by decide)]
    rfl
  refine ⟨?_, ?_, ?_, ?_, ?_, ?_⟩
  · rw [dictGet_full_params_ne key _ "fromDateTime" rfl]
    exact lastVal_of_dictGet_none _ _ h1
  · rw [dictGet_full_params_ne key _ "toDateTime" rfl]
    exact lastVal_of_dictGet_none _ _ h2
  · rw [dictGet_full_params_ne key _ "sort" rfl]
    exact lastVal_of_dictGet_none _ _ h3
  · rw [dictGet_full_params_ne key _ "chamber" rfl]
    exact lastVal_of_dictGet_none _ _ h4
  · rw [dictGet_full_params_ne key _ "chamber" rfl]
    exact lastVal_of_dictGet_none _ _ h5
  · rw [dictGet_full_params_ne key _ "committee" rfl]
    exact lastVal_of_dictGet_none _ _ h6

/-- C10: passing an explicit empty string for an optional string filter
behaves exactly like omitting the argument, because inclusion is decided
by Python truthiness: the whole tool call, and hence the outgoing
request, is identical. -/
theorem empty_string_filter_behaves_as_omitted (key : Option String) (c : Int)
    (l o : Option Int) (fd td s ch cm : Option String) (net : NetOutcome) :
    (list_bills key l o (some "") td s net = list_bills key l o none td s net)
    ∧ (list_bills key l o fd (some "") s net = list_bills key l o fd none s net)
    ∧ (list_bills key l o fd td (some "") net = list_bills key l o fd td none net)
    ∧ (list_committees key l o (some "") net = list_committees key l o none net)
    ∧ (list_hearings_by_congress key c l o (some "") cm net =
        list_hearings_by_congress key c l o none cm net)
    ∧ (list_hearings_by_congress key c l o ch (some "") net =
        list_hearings_by_congress key c l o ch none net) := by
  exact ⟨rfl, rfl, rfl, rfl, rfl, rfl⟩

end Codex
